import Mathlib

/-!
Verification of the JSON edit-distance evaluator
(`libs/langchain/langchain/evaluation/parsing/json_distance.py`).

The evaluator resolves a prediction and a reference (parsing strings through
an external markdown-JSON extractor), canonicalizes both with a configurable
canonicalization function (by default `json.dumps` with sorted keys and no
extra whitespace), applies a configurable string-distance function to the two
canonical strings, and returns a record with the single field `score`.

Modelling choices:
- Python JSON-like values are the inductive `JsonValue`; Python `None` is
  `JsonValue.null`, and a Python `str` is `JsonValue.str`.
- Numeric scalars are modelled as integers (`Int`); `json.dumps` renders an
  integer as its decimal representation, matching Python `str(int)`.
- Scores (Python `float` results of the distance function) are modelled as
  rationals; no claim depends on floating-point rounding.
- The external extractor `parse_json_markdown` is not part of this source
  file; it is passed as an explicit function argument of type
  `String → Except ParseError JsonValue`, and all theorems quantify over it.
- Raised exceptions are modelled with `Except`: `ParseError` for parse
  failures during evaluation, and an error string for the `ImportError`
  raised at construction time.
-/

/-- A structural JSON value: the union `dict | list | None | bool | int | str`
that flows through the evaluator (Python `float` is modelled by `Int`,
see the header comment). -/
inductive JsonValue where
  | null : JsonValue
  | boolean : Bool → JsonValue
  | num : Int → JsonValue
  | str : String → JsonValue
  | arr : List JsonValue → JsonValue
  | obj : List (String × JsonValue) → JsonValue

/-- Lexicographic code-point comparison of character lists, the order Python
uses to compare strings (and hence the order of `sorted` on dict keys). -/
def charListLE : List Char → List Char → Bool
  | [], _ => true
  | _ :: _, [] => false
  | a :: as, b :: bs => if a = b then charListLE as bs else decide (a < b)

/-- Python string comparison: lexicographic on code points. -/
def keyLE (a b : String) : Bool := charListLE a.data b.data

/-- Comparison of rendered dict items by key, as used by
`json.dumps(sort_keys=True)` (keys are unique in a Python dict, so only keys
are ever compared; the sort is stable). -/
def pairLE (p q : String × String) : Bool := keyLE p.1 q.1

/-- Lower-case hexadecimal digit, as used by Python `\uXXXX` escapes. -/
def hexDigit (n : Nat) : Char :=
  if n < 10 then Char.ofNat (48 + n) else Char.ofNat (87 + n)

/-- A `\uXXXX` escape with four lower-case hex digits. -/
def escapeHex (n : Nat) : String :=
  "\\u" ++ String.mk [hexDigit (n / 4096 % 16), hexDigit (n / 256 % 16),
    hexDigit (n / 16 % 16), hexDigit (n % 16)]

/-- Encoding of one character inside a JSON string literal, following
Python `json.dumps` with its default `ensure_ascii=True`: shorthand escapes
for the usual control characters, `\uXXXX` (with surrogate pairs above
`0xFFFF`) for all other characters outside `0x20`–`0x7E`. -/
def encodeChar (c : Char) : String :=
  if c = Char.ofNat 34 then "\\\""
  else if c = Char.ofNat 92 then "\\\\"
  else if c = Char.ofNat 10 then "\\n"
  else if c = Char.ofNat 13 then "\\r"
  else if c = Char.ofNat 9 then "\\t"
  else if c = Char.ofNat 8 then "\\b"
  else if c = Char.ofNat 12 then "\\f"
  else if c.toNat < 32 ∨ 126 < c.toNat then
    if c.toNat < 65536 then escapeHex c.toNat
    else escapeHex (55296 + (c.toNat - 65536) / 1024) ++
      escapeHex (56320 + (c.toNat - 65536) % 1024)
  else String.singleton c

/-- JSON encoding of a string: quotes around the escaped characters. -/
def encodeString (s : String) : String :=
  "\"" ++ String.join (s.data.map encodeChar) ++ "\""

mutual

/-- The default canonicalization function of the evaluator:
`lambda x: json.dumps(x, separators=(",", ":"), sort_keys=True)` —
sorted mapping keys at every nesting level, minimal separators, no
insignificant whitespace.  Mapping entries are rendered individually and the
rendered pairs are sorted by key with a stable sort; since the comparison
looks only at the (unchanged) keys, this coincides with sorting the entries
before rendering, which is what `json.dumps` does internally. -/
def defaultCanonicalize : JsonValue → String
  | .null => "null"
  | .boolean b => if b then "true" else "false"
  | .num n => toString n
  | .str s => encodeString s
  | .arr xs => "[" ++ String.intercalate "," (canonElems xs) ++ "]"
  | .obj kvs =>
      "\x7b" ++ String.intercalate ","
        ((List.insertionSort (fun p q => pairLE p q = true) (canonPairs kvs)).map
          fun q => encodeString q.1 ++ ":" ++ q.2) ++ "\x7d"

/-- The canonical forms of the elements of a JSON array, in order. -/
def canonElems : List JsonValue → List String
  | [] => []
  | x :: xs => defaultCanonicalize x :: canonElems xs

/-- The entries of a JSON mapping with each value replaced by its canonical
form (keys untouched). -/
def canonPairs : List (String × JsonValue) → List (String × String)
  | [] => []
  | (k, v) :: rest => (k, defaultCanonicalize v) :: canonPairs rest

end

/-- A parse failure raised by the external markdown-JSON extractor. -/
structure ParseError where
  message : String

/-- The record returned by `_evaluate_strings`: a single field `score`. -/
structure EvaluationResult where
  score : Rat

/-- The evaluator's state after construction: the configured distance
function and canonicalization function (attributes `_string_distance` and
`_canonicalize`). -/
structure JsonEditDistanceEvaluator where
  _string_distance : String → String → Rat
  _canonicalize : JsonValue → String

/-- The message of the `ImportError` raised when no distance function is
supplied and `rapidfuzz` is unavailable (the Python source concatenates
four string fragments; note the doubled space). -/
def importErrorMessage : String :=
  "The default string_distance operator for the  JsonEditDistanceEvaluator requires installation of the rapidfuzz package. Please install it with `pip install rapidfuzz`."

/-- Construction (`__init__`): takes optional `string_distance` and
`canonicalize` arguments. When no distance function is supplied, it attempts
an import of `rapidfuzz` (modelled by the flag `rapidfuzzAvailable`, with
`rapidfuzzDistance` standing for
`rapidfuzz.distance.DamerauLevenshtein.normalized_distance`), raising an
`ImportError` when it is not available. When no canonicalization function is
supplied, `defaultCanonicalize` is used. -/
def JsonEditDistanceEvaluator.init
    (string_distance : Option (String → String → Rat))
    (canonicalize : Option (JsonValue → String))
    (rapidfuzzAvailable : Bool)
    (rapidfuzzDistance : String → String → Rat) :
    Except String JsonEditDistanceEvaluator :=
  match string_distance with
  | some sd =>
      .ok { _string_distance := sd,
            _canonicalize := canonicalize.getD defaultCanonicalize }
  | none =>
      if rapidfuzzAvailable then
        .ok { _string_distance := rapidfuzzDistance,
              _canonicalize := canonicalize.getD defaultCanonicalize }
      else
        .error importErrorMessage

/-- `_parse_json`: if the node is a string, delegate to the external
extractor `parse_json_markdown` (passed as an argument, see the header
comment); otherwise return the node unchanged. -/
def JsonEditDistanceEvaluator._parse_json
    (parse_json_markdown : String → Except ParseError JsonValue)
    (node : JsonValue) : Except ParseError JsonValue :=
  match node with
  | .str s => parse_json_markdown s
  | v => .ok v

/-- `_distance`: delegates to the configured `_string_distance`. -/
def JsonEditDistanceEvaluator._distance (self : JsonEditDistanceEvaluator)
    (a b : String) : Rat :=
  self._string_distance a b

/-- `_evaluate_strings`: canonicalize the parsed prediction, canonicalize the
parsed reference, apply `_distance`, and return `{"score": distance}`.
A `ParseError` raised while resolving either side aborts the evaluation
(modelled by the `Except` monad). -/
def JsonEditDistanceEvaluator._evaluate_strings
    (self : JsonEditDistanceEvaluator)
    (parse_json_markdown : String → Except ParseError JsonValue)
    (prediction : JsonValue) (input : Option String)
    (reference : JsonValue) : Except ParseError EvaluationResult := do
  let parsed := self._canonicalize
    (← JsonEditDistanceEvaluator._parse_json parse_json_markdown prediction)
  let label := self._canonicalize
    (← JsonEditDistanceEvaluator._parse_json parse_json_markdown reference)
  let distance := self._distance parsed label
  return { score := distance }

/-- `requires_input` property: `False`. -/
def JsonEditDistanceEvaluator.requires_input
    (_ : JsonEditDistanceEvaluator) : Bool := false

/-- `requires_reference` property: `True`. -/
def JsonEditDistanceEvaluator.requires_reference
    (_ : JsonEditDistanceEvaluator) : Bool := true

/-- `evaluation_name` property: the fixed name token. -/
def JsonEditDistanceEvaluator.evaluation_name
    (_ : JsonEditDistanceEvaluator) : String := "json_edit_distance"

/-! ### Properties of the key comparison -/

/-- The lexicographic comparison of character lists is total. -/
theorem charListLE_total (as : List Char) :
    ∀ bs, charListLE as bs = true ∨ charListLE bs as = true := by
  induction as with
  | nil => intro bs; left; rfl
  | cons a as ih =>
    intro bs
    cases bs with
    | nil => right; rfl
    | cons b bs =>
      by_cases hab : a = b
      · subst hab
        simp only [charListLE, if_pos rfl]
        exact ih bs
      · rcases lt_or_gt_of_ne hab with h | h
        · left
          simp only [charListLE, if_neg hab]
          exact decide_eq_true h
        · right
          simp only [charListLE, if_neg (Ne.symm hab)]
          exact decide_eq_true h

/-- The lexicographic comparison of character lists is transitive. -/
theorem charListLE_trans (as : List Char) :
    ∀ bs cs, charListLE as bs = true → charListLE bs cs = true →
      charListLE as cs = true := by
  induction as with
  | nil => intro bs cs _ _; rfl
  | cons a as ih =>
    intro bs cs h1 h2
    cases bs with
    | nil => simp [charListLE] at h1
    | cons b bs =>
      cases cs with
      | nil => simp [charListLE] at h2
      | cons c cs =>
        simp only [charListLE] at h1 h2 ⊢
        by_cases hab : a = b
        · subst hab
          rw [if_pos rfl] at h1
          by_cases hbc : a = c
          · subst hbc
            rw [if_pos rfl] at h2 ⊢
            exact ih bs cs h1 h2
          · rw [if_neg hbc] at h2 ⊢
            exact h2
        · rw [if_neg hab] at h1
          have hab2 : a < b := of_decide_eq_true h1
          by_cases hbc : b = c
          · subst hbc
            rw [if_neg hab]
            exact h1
          · rw [if_neg hbc] at h2
            have hbc2 : b < c := of_decide_eq_true h2
            have hac : a < c := lt_trans hab2 hbc2
            rw [if_neg (ne_of_lt hac)]
            exact decide_eq_true hac

/-- The lexicographic comparison of character lists is antisymmetric. -/
theorem charListLE_antisymm (as : List Char) :
    ∀ bs, charListLE as bs = true → charListLE bs as = true → as = bs := by
  induction as with
  | nil =>
    intro bs h1 h2
    cases bs with
    | nil => rfl
    | cons b bs => simp [charListLE] at h2
  | cons a as ih =>
    intro bs h1 h2
    cases bs with
    | nil => simp [charListLE] at h1
    | cons b bs =>
      simp only [charListLE] at h1 h2
      by_cases hab : a = b
      · subst hab
        rw [if_pos rfl] at h1 h2
        rw [ih bs h1 h2]
      · rw [if_neg hab] at h1
        rw [if_neg (Ne.symm hab)] at h2
        have hab2 : a < b := of_decide_eq_true h1
        have hba2 : b < a := of_decide_eq_true h2
        exact absurd (lt_trans hab2 hba2) (lt_irrefl a)

/-- Totality of the Python string order. -/
theorem keyLE_total (a b : String) : keyLE a b = true ∨ keyLE b a = true :=
  charListLE_total a.data b.data

/-- Transitivity of the Python string order. -/
theorem keyLE_trans {a b c : String} (h1 : keyLE a b = true)
    (h2 : keyLE b c = true) : keyLE a c = true :=
  charListLE_trans a.data b.data c.data h1 h2

/-- Antisymmetry of the Python string order. -/
theorem keyLE_antisymm {a b : String} (h1 : keyLE a b = true)
    (h2 : keyLE b a = true) : a = b :=
  String.ext (charListLE_antisymm a.data b.data h1 h2)

/-- `canonPairs` renders every value and keeps every key. -/
theorem canonPairs_eq_map (l : List (String × JsonValue)) :
    canonPairs l = l.map fun p => (p.1, defaultCanonicalize p.2) := by
  induction l with
  | nil => rfl
  | cons p rest ih =>
    obtain ⟨k, v⟩ := p
    simp [canonPairs, ih]

/-- Sorting rendered mapping entries by key is insensitive to the original
entry order, as long as the keys are distinct. -/
theorem insertionSort_key_eq (m₁ m₂ : List (String × String))
    (hp : m₁.Perm m₂) (hn : (m₁.map Prod.fst).Nodup) :
    List.insertionSort (fun p q => pairLE p q = true) m₁ =
      List.insertionSort (fun p q => pairLE p q = true) m₂ := by
  haveI : IsTotal (String × String) (fun p q => pairLE p q = true) :=
    ⟨fun a b => keyLE_total a.1 b.1⟩
  haveI : IsTrans (String × String) (fun p q => pairLE p q = true) :=
    ⟨fun _ _ _ h1 h2 => keyLE_trans h1 h2⟩
  haveI : IsAntisymm (String × String)
      (fun p q => pairLE p q = true ∧ p.1 ≠ q.1) :=
    ⟨fun _ _ h1 h2 => absurd (keyLE_antisymm h1.1 h2.1) h1.2⟩
  have hs₁ := List.sorted_insertionSort (fun p q => pairLE p q = true) m₁
  have hs₂ := List.sorted_insertionSort (fun p q => pairLE p q = true) m₂
  have hperm : (List.insertionSort (fun p q => pairLE p q = true) m₁).Perm
      (List.insertionSort (fun p q => pairLE p q = true) m₂) :=
    (List.perm_insertionSort _ m₁).trans
      (hp.trans (List.perm_insertionSort _ m₂).symm)
  have hn₁ : ((List.insertionSort (fun p q => pairLE p q = true) m₁).map
      Prod.fst).Nodup :=
    (((List.perm_insertionSort _ m₁).map Prod.fst).nodup_iff).mpr hn
  have hn₂ : ((List.insertionSort (fun p q => pairLE p q = true) m₂).map
      Prod.fst).Nodup :=
    (((List.perm_insertionSort _ m₂).map Prod.fst).nodup_iff).mpr
      (((hp.map Prod.fst).nodup_iff).mp hn)
  exact List.eq_of_perm_of_sorted hperm
    (hs₁.and (List.pairwise_map.mp hn₁)) (hs₂.and (List.pairwise_map.mp hn₂))

/-! ### Concrete instances used by the witnesses -/

/-- A stand-in for the external extractor that always succeeds. -/
def stubExtractor : String → Except ParseError JsonValue :=
  fun _ => Except.ok (JsonValue.num 7)

/-- A stand-in for the external extractor that always fails with a
`ParseError` carrying the offending text. -/
def failExtractor : String → Except ParseError JsonValue :=
  fun s => Except.error { message := s }

/-- The discrete metric on strings: a concrete distance function with
`d s s = 0`. -/
def discreteDistance : String → String → Rat :=
  fun a b => if a = b then 0 else 1

/-- An evaluator configured with the discrete metric and the default
canonicalization. -/
def discreteEvaluator : JsonEditDistanceEvaluator :=
  { _string_distance := discreteDistance, _canonicalize := defaultCanonicalize }

/-! ### The claims -/

/-- Claim C1: for every prediction and reference, `_evaluate_strings`
resolves the prediction and canonicalizes it to a string A, resolves the
reference and canonicalizes it to a string B, applies the configured
distance function to (A, B), and returns a record whose single field
`score` holds that value. -/
theorem claim_C1 (ev : JsonEditDistanceEvaluator)
    (pjm : String → Except ParseError JsonValue)
    (prediction : JsonValue) (inp : Option String) (reference : JsonValue)
    (p r : JsonValue)
    (hp : JsonEditDistanceEvaluator._parse_json pjm prediction = Except.ok p)
    (hr : JsonEditDistanceEvaluator._parse_json pjm reference = Except.ok r) :
    ev._evaluate_strings pjm prediction inp reference =
      Except.ok ⟨ev._distance (ev._canonicalize p) (ev._canonicalize r)⟩ := by
  simp [JsonEditDistanceEvaluator._evaluate_strings,
    JsonEditDistanceEvaluator._distance, hp, hr, bind, Except.bind,
    pure, Except.pure]

/-- Witness for C1 at a concrete evaluator, extractor, prediction and
reference. -/
theorem claim_C1_witness :
    JsonEditDistanceEvaluator._evaluate_strings discreteEvaluator
      stubExtractor (JsonValue.str "x") none (JsonValue.num 3) =
      Except.ok ⟨discreteEvaluator._distance
        (discreteEvaluator._canonicalize (JsonValue.num 7))
        (discreteEvaluator._canonicalize (JsonValue.num 3))⟩ :=
  claim_C1 discreteEvaluator stubExtractor (JsonValue.str "x") none
    (JsonValue.num 3) (JsonValue.num 7) (JsonValue.num 3) rfl rfl

/-- Claim C2: for any two mappings with identical key/value sets (modelled
as permuted entry lists with distinct keys, keys being unique in a mapping)
the default canonicalization produces identical strings. -/
theorem claim_C2 (l₁ l₂ : List (String × JsonValue))
    (hperm : l₁.Perm l₂) (hnodup : (l₁.map Prod.fst).Nodup) :
    defaultCanonicalize (JsonValue.obj l₁) =
      defaultCanonicalize (JsonValue.obj l₂) := by
  have hcp : (canonPairs l₁).Perm (canonPairs l₂) := by
    rw [canonPairs_eq_map, canonPairs_eq_map]
    exact hperm.map _
  have hkeys : ((canonPairs l₁).map Prod.fst).Nodup := by
    rw [canonPairs_eq_map, List.map_map]
    exact hnodup
  have hsort := insertionSort_key_eq (canonPairs l₁) (canonPairs l₂) hcp hkeys
  simp only [defaultCanonicalize]
  rw [hsort]

/-- Witness for C2: the mapping `{"b": 2, "a": 1}` written in two insertion
orders canonicalizes to the same string. -/
theorem claim_C2_witness :
    ([("b", JsonValue.num 2), ("a", JsonValue.num 1)] :
        List (String × JsonValue)).Perm
      [("a", JsonValue.num 1), ("b", JsonValue.num 2)] ∧
    defaultCanonicalize
        (JsonValue.obj [("b", JsonValue.num 2), ("a", JsonValue.num 1)]) =
      defaultCanonicalize
        (JsonValue.obj [("a", JsonValue.num 1), ("b", JsonValue.num 2)]) :=
  ⟨List.Perm.swap ("a", JsonValue.num 1) ("b", JsonValue.num 2) [],
    claim_C2 _ _
      (List.Perm.swap ("a", JsonValue.num 1) ("b", JsonValue.num 2) [])
      (by decide)⟩

/-- Claim C3: evaluating a value against itself yields score 0, whenever the
configured distance function satisfies `d s s = 0` and the value resolves
successfully (a valid JSON input). -/
theorem claim_C3 (ev : JsonEditDistanceEvaluator)
    (pjm : String → Except ParseError JsonValue)
    (X : JsonValue) (inp : Option String)
    (hmetric : ∀ s, ev._string_distance s s = 0)
    (v : JsonValue)
    (hX : JsonEditDistanceEvaluator._parse_json pjm X = Except.ok v) :
    ev._evaluate_strings pjm X inp X = Except.ok { score := 0 } := by
  simp [JsonEditDistanceEvaluator._evaluate_strings,
    JsonEditDistanceEvaluator._distance, hX, bind, Except.bind, hmetric,
    pure, Except.pure]

/-- Witness for C3: the object `{"a": 1}` scored against itself with the
discrete metric. -/
theorem claim_C3_witness :
    JsonEditDistanceEvaluator._evaluate_strings discreteEvaluator
      failExtractor (JsonValue.obj [("a", JsonValue.num 1)]) none
      (JsonValue.obj [("a", JsonValue.num 1)]) =
      Except.ok { score := 0 } :=
  claim_C3 discreteEvaluator failExtractor
    (JsonValue.obj [("a", JsonValue.num 1)]) none
    (fun s => by simp [discreteEvaluator, discreteDistance])
    (JsonValue.obj [("a", JsonValue.num 1)]) rfl

/-- Claim C4: `_parse_json` delegates to the external extractor exactly on
strings and is the identity on every non-string value. -/
theorem claim_C4 (pjm : String → Except ParseError JsonValue) :
    (∀ s, JsonEditDistanceEvaluator._parse_json pjm (JsonValue.str s) =
      pjm s) ∧
    (∀ node : JsonValue, (∀ s, node ≠ JsonValue.str s) →
      JsonEditDistanceEvaluator._parse_json pjm node = Except.ok node) := by
  constructor
  · intro s
    rfl
  · intro node h
    cases node with
    | str s => exact absurd rfl (h s)
    | null => rfl
    | boolean b => rfl
    | num n => rfl
    | arr xs => rfl
    | obj kvs => rfl

/-- Witness for C4: a string is routed to the extractor, `null` passes
through unchanged. -/
theorem claim_C4_witness :
    JsonEditDistanceEvaluator._parse_json stubExtractor (JsonValue.str "x") =
      stubExtractor "x" ∧
    JsonEditDistanceEvaluator._parse_json stubExtractor JsonValue.null =
      Except.ok JsonValue.null :=
  ⟨(claim_C4 stubExtractor).1 "x",
    (claim_C4 stubExtractor).2 JsonValue.null
      (fun s h => JsonValue.noConfusion h)⟩

/-- Claim C5: `_distance` returns exactly the value of the configured
distance function, with no transformation, clamping or rounding — for every
configured function, including ones whose values lie outside [0, 1]. -/
theorem claim_C5 (ev : JsonEditDistanceEvaluator) (a b : String) :
    ev._distance a b = ev._string_distance a b := rfl

set_option maxRecDepth 400000 in
/-- Claim C6: construction fails exactly when no distance function is
supplied and `rapidfuzz` is unavailable; the message names the missing
dependency and the remediation; a supplied distance function makes the
construction ignore availability and always succeed. -/
theorem claim_C6 (c : Option (JsonValue → String))
    (rfDist : String → String → Rat) :
    (∀ sd avail,
      (JsonEditDistanceEvaluator.init (some sd) c avail rfDist).isOk = true) ∧
    (∀ sd, JsonEditDistanceEvaluator.init (some sd) c true rfDist =
      JsonEditDistanceEvaluator.init (some sd) c false rfDist) ∧
    (JsonEditDistanceEvaluator.init none c true rfDist).isOk = true ∧
    JsonEditDistanceEvaluator.init none c false rfDist =
      Except.error importErrorMessage ∧
    List.IsInfix "rapidfuzz".data importErrorMessage.data ∧
    List.IsInfix "pip install rapidfuzz".data importErrorMessage.data := by
  refine ⟨fun sd avail => rfl, fun sd => rfl, rfl, rfl, ?_, ?_⟩
  · decide
  · decide

/-- Claim C7: a `ParseError` raised while resolving either the prediction or
the reference aborts the evaluation with exactly that error: no catching, no
partial scoring, no fallback score. -/
theorem claim_C7 (ev : JsonEditDistanceEvaluator)
    (pjm : String → Except ParseError JsonValue)
    (prediction : JsonValue) (inp : Option String) (reference : JsonValue)
    (e : ParseError)
    (h : JsonEditDistanceEvaluator._parse_json pjm prediction =
        Except.error e ∨
      ((JsonEditDistanceEvaluator._parse_json pjm prediction).isOk = true ∧
        JsonEditDistanceEvaluator._parse_json pjm reference =
          Except.error e)) :
    ev._evaluate_strings pjm prediction inp reference = Except.error e := by
  rcases h with h | ⟨h1, h2⟩
  · simp [JsonEditDistanceEvaluator._evaluate_strings, h, bind, Except.bind]
  · cases hp : JsonEditDistanceEvaluator._parse_json pjm prediction with
    | error e2 =>
        rw [hp] at h1
        simp [Except.isOk, Except.toBool] at h1
    | ok p =>
        simp [JsonEditDistanceEvaluator._evaluate_strings, hp, h2, bind,
          Except.bind]

/-- Witness for C7: an unparseable prediction aborts the evaluation with the
extractor's error. -/
theorem claim_C7_witness :
    JsonEditDistanceEvaluator._evaluate_strings discreteEvaluator
      failExtractor (JsonValue.str "not json at all") none (JsonValue.num 1) =
      Except.error { message := "not json at all" } :=
  claim_C7 discreteEvaluator failExtractor (JsonValue.str "not json at all")
    none (JsonValue.num 1) { message := "not json at all" } (Or.inl rfl)

/-- Claim C8: the evaluator exposes `requires_input = False`,
`requires_reference = True`, and the name token `"json_edit_distance"`. -/
theorem claim_C8 (ev : JsonEditDistanceEvaluator) :
    ev.requires_input = false ∧ ev.requires_reference = true ∧
      ev.evaluation_name = "json_edit_distance" :=
  ⟨rfl, rfl, rfl⟩

/-- Claim C9: the optional `input` argument has no effect on the result of
`_evaluate_strings` (two-run equality). -/
theorem claim_C9 (ev : JsonEditDistanceEvaluator)
    (pjm : String → Except ParseError JsonValue)
    (prediction : JsonValue) (reference : JsonValue)
    (i1 i2 : Option String) :
    ev._evaluate_strings pjm prediction i1 reference =
      ev._evaluate_strings pjm prediction i2 reference := rfl

/-- Claim C10: a `None` reference is not rejected: it passes through
`_parse_json` unchanged, the default canonicalization renders it as "null",
and the prediction is scored against "null" with no error raised. -/
theorem claim_C10 (dist : String → String → Rat)
    (pjm : String → Except ParseError JsonValue)
    (prediction : JsonValue) (inp : Option String) (p : JsonValue)
    (hp : JsonEditDistanceEvaluator._parse_json pjm prediction =
      Except.ok p) :
    JsonEditDistanceEvaluator._parse_json pjm JsonValue.null =
      Except.ok JsonValue.null ∧
    defaultCanonicalize JsonValue.null = "null" ∧
    JsonEditDistanceEvaluator._evaluate_strings
        { _string_distance := dist, _canonicalize := defaultCanonicalize }
        pjm prediction inp JsonValue.null =
      Except.ok { score := dist (defaultCanonicalize p) "null" } := by
  refine ⟨rfl, rfl, ?_⟩
  have hnull : JsonEditDistanceEvaluator._parse_json pjm JsonValue.null =
      Except.ok JsonValue.null := rfl
  simp [JsonEditDistanceEvaluator._evaluate_strings,
    JsonEditDistanceEvaluator._distance, hp, hnull, bind, Except.bind,
    pure, Except.pure, defaultCanonicalize]

/-- Witness for C10: the prediction 5 scored against an omitted (None)
reference. -/
theorem claim_C10_witness :
    JsonEditDistanceEvaluator._parse_json failExtractor JsonValue.null =
      Except.ok JsonValue.null ∧
    defaultCanonicalize JsonValue.null = "null" ∧
    JsonEditDistanceEvaluator._evaluate_strings
        { _string_distance := discreteDistance,
          _canonicalize := defaultCanonicalize }
        failExtractor (JsonValue.num 5) none JsonValue.null =
      Except.ok ⟨discreteDistance
        (defaultCanonicalize (JsonValue.num 5)) "null"⟩ :=
  claim_C10 discreteDistance failExtractor (JsonValue.num 5) none
    (JsonValue.num 5) rfl
